import Mathlib

/-! mcp-intent-analyzer: request/response translation pipeline

A shallow embedding of the three layers of `mcp-intent-analyzer`
(`internal/gemini/client.go`, `internal/service/intent_service.go`,
`internal/handler/grpc_handler.go`) and theorems about them.

Conventions of the embedding

* A Go function returning `(*T, error)` returns a `Res ε T`: a value, an error, or a
  run-time panic (the slice expression of `parseGeminiResponse` can panic).
* Go strings are Lean `String`s. The two offsets that the program computes
  (`strings.Index`, `strings.LastIndex` of a one-byte ASCII brace) are counted in characters
  instead of bytes; an ASCII byte never occurs inside a multi-byte UTF-8 sequence, so the
  slice taken between the two offsets is the same text in both countings and the order
  relations between the offsets are the same.
* `type Priority int32` and `type EmotionalTone int32` are integers with named constants.
* Collaborators outside the repository are explicit: the external text-generation call,
  `json.Unmarshal` and the clock readings are fields of the value that uses them.
* Pointers of a model response that may be nil are options: the response, the content of a
  candidate, and the elements of the pointer slices `[]*Candidate` and `[]*Part`. Reading a
  field through a nil pointer is a panic.
* The external world (the model service and whatever it records) is a state `σ` that is
  passed through every call that can reach the collaborator.
* Logging is not modelled: it has no influence on any returned value.
-/

set_option maxRecDepth 8000

/-- Outcome of a Go call that returns `(value, error)`: a value, an error, or a panic. -/
inductive Res (ε α : Type) where
  | ok : α → Res ε α
  | error : ε → Res ε α
  | panic : Res ε α

/-- Go `error` values, identified with the text their `Error()` method returns. -/
abbrev GoError := String

namespace strings

/-- Offset of the first occurrence of `substr` in the text, or `-1`. -/
def indexAux : List Char → List Char → Int
  | [], substr => if substr = [] then 0 else -1
  | x :: xs, substr =>
    if substr.isPrefixOf (x :: xs) then 0
    else
      let i := indexAux xs substr
      if i = -1 then -1 else i + 1

/-- Offset of the last occurrence of `substr` in the text, or `-1`. -/
def lastIndexAux : List Char → List Char → Int
  | [], substr => if substr = [] then 0 else -1
  | x :: xs, substr =>
    let i := lastIndexAux xs substr
    if i ≠ -1 then i + 1
    else if substr.isPrefixOf (x :: xs) then 0 else -1

/-- Go `strings.Index(s, substr)`. -/
def Index (s substr : String) : Int := indexAux s.data substr.data

/-- Go `strings.LastIndex(s, substr)`. -/
def LastIndex (s substr : String) : Int := lastIndexAux s.data substr.data

/-- Go `strings.Contains(s, substr)`: `strings.Index(s, substr) >= 0`. -/
def Contains (s substr : String) : Bool := decide (0 ≤ Index s substr)

/-- Go `strings.Join(elems, sep)`. -/
def Join : List String → String → String
  | [], _ => ""
  | [a], _ => a
  | a :: b :: rest, sep => a ++ sep ++ Join (b :: rest) sep

end strings

/-- Go slice expression `s[lo:hi]` on a string: `none` stands for the run-time panic
"slice bounds out of range", raised unless `0 ≤ lo ≤ hi ≤ len(s)`. -/
def goSlice (s : String) (lo hi : Int) : Option String :=
  if 0 ≤ lo ∧ lo ≤ hi ∧ hi ≤ (s.length : Int) then
    some ⟨(s.data.drop lo.toNat).take (hi.toNat - lo.toNat)⟩
  else none

namespace fmt

/-- Formatting loop of `fmt.Sprintf` for string operands. A verb in `verbs` writes the next
operand; `%%` writes a percent sign; a verb without operand writes Go's `%!v(MISSING)`, a
verb outside `verbs` writes Go's `%!v(string=operand)`, a trailing `%` writes `%!(NOVERB)`.
Flags and widths do not occur in the format strings of the program and are not modelled. -/
def format (verbs : List Char) : List Char → List String → List Char
  | [], _ => []
  | c :: rest, args =>
    if c = Char.ofNat 37 then
      match rest with
      | [] => "%!(NOVERB)".data
      | v :: rest1 =>
        if v = Char.ofNat 37 then Char.ofNat 37 :: format verbs rest1 args
        else
          match args with
          | [] => "%!".data ++ v :: "(MISSING)".data ++ format verbs rest1 []
          | a :: as =>
            if v ∈ verbs then a.data ++ format verbs rest1 as
            else
              "%!".data ++ v :: "(string=".data ++ a.data ++ ")".data ++ format verbs rest1 as
    else c :: format verbs rest args

/-- Go `fmt.Sprintf(format, args...)` with string operands and the verb `%s`. Operands
left over after the format is consumed do not occur in the program and are dropped. -/
def Sprintf (fmtStr : String) (args : List String) : String :=
  ⟨format [Char.ofNat 115] fmtStr.data args⟩

/-- Go `fmt.Errorf(format, args...)`: the error whose text is the formatted string; the verb
`%w` writes the text of the wrapped error. -/
def Errorf (fmtStr : String) (args : List GoError) : GoError :=
  ⟨format [Char.ofNat 115, Char.ofNat 119] fmtStr.data args⟩

end fmt

namespace genai

/-- Source: `genai.Part`; only the `Text` field is read by the program. -/
structure Part where
  Text : String

/-- Source: `genai.Content`; `Parts` is the slice `[]*Part`, whose elements may be nil. -/
structure Content where
  Parts : List (Option Part)

/-- Source: `genai.Candidate`; `Content` is a pointer that may be nil. -/
structure Candidate where
  Content : Option Content

/-- Source: `genai.GenerateContentResponse`; `Candidates` is the slice `[]*Candidate`, whose
elements may be nil. The response itself is a pointer that may be nil and is passed as an
option. -/
structure GenerateContentResponse where
  Candidates : List (Option Candidate)

/-- Source: `genai.NewPartFromText`. -/
def NewPartFromText (text : String) : Part := ⟨text⟩

end genai

namespace gemini

/-- Source: `type AnalyzeRequest struct`. -/
structure AnalyzeRequest where
  Text : String
  Domain : String
  UserID : String
  ContextMessages : List String
  Metadata : List (String × String)

/-- Source: `type Keyword struct`. -/
structure Keyword where
  Text : String
  Weight : Float
  Category : String

/-- Source: `type AnalyzeResponse struct`. -/
structure AnalyzeResponse where
  IntentType : String
  DomainSpecificIntent : String
  Keywords : List Keyword
  Priority : String
  Confidence : Float
  EmotionalTone : String
  UrgencyIndicators : List String
  Reasoning : String
  IntentScores : List (String × Float)
  ProcessingTimeMs : Int

/-- Source: `type Client interface`. A call may change the external world `σ`;
`IsHealthy` returns `none` when the call panics. -/
structure Client (σ : Type) where
  AnalyzeIntent : AnalyzeRequest → σ → Res GoError AnalyzeResponse × σ
  IsHealthy : σ → Option Bool × σ

/-- A client that also counts the calls made through it, in a counter kept next to the
world of the client it wraps. -/
def Client.counted {σ : Type} (c : Client σ) : Client (σ × Nat) :=
  { AnalyzeIntent := fun request w =>
      ((c.AnalyzeIntent request w.1).1, ((c.AnalyzeIntent request w.1).2, w.2 + 1))
    IsHealthy := fun w => ((c.IsHealthy w.1).1, ((c.IsHealthy w.1).2, w.2 + 1)) }

/-- Source: the local `var geminiResponse struct` of `parseGeminiResponse`, the target of
`json.Unmarshal`. -/
structure geminiResponse where
  IntentType : String
  DomainSpecificIntent : String
  Keywords : List Keyword
  Priority : String
  Confidence : Float
  EmotionalTone : String
  UrgencyIndicators : List String
  Reasoning : String
  IntentScores : List (String × Float)

/-- Source: `type vertexAIClient struct`. `GenerateContent` stands for the method
`c.client.Models.GenerateContent(ctx, model, contents, nil)` of the external client handle;
`Unmarshal` stands for `json.Unmarshal` into a `geminiResponse`; `sinceMs` is the reading of
`time.Since(startTime).Milliseconds()` taken by `parseGeminiResponse`. -/
structure vertexAIClient (σ : Type) where
  projectID : String
  location : String
  modelName : String
  GenerateContent : String → List (Option genai.Content) → σ →
    Res GoError (Option genai.GenerateContentResponse) × σ
  Unmarshal : String → Except GoError geminiResponse
  sinceMs : Int

/-- The format string of the prompt, line by line as in the source. -/
def promptFormat : String :=
  "사용자의 메시지를 분석하여 의도, 우선순위, 감정 톤, 키워드를 파악해주세요.\n" ++
  "\n" ++
  "분석할 메시지: \"%s\"\n" ++
  "도메인: %s%s\n" ++
  "\n" ++
  "다음 JSON 형식으로 정확히 응답해주세요:\n" ++
  "\x7b\n" ++
  "  \"intent_type\": \"question_how|question_what|request_help|report_issue|ask_status|question_general\",\n" ++
  "  \"domain_specific_intent\": \"구체적인 도메인별 의도\",\n" ++
  "  \"keywords\": [\n" ++
  "    \x7b\"text\": \"키워드\", \"weight\": 0.9, \"category\": \"technical|action|domain\"\x7d\n" ++
  "  ],\n" ++
  "  \"priority\": \"P1|P2|P3|P4\",\n" ++
  "  \"confidence\": 0.85,\n" ++
  "  \"emotional_tone\": \"neutral|positive|negative|frustrated|urgent|grateful\",\n" ++
  "  \"urgency_indicators\": [\"급해\", \"urgent\"],\n" ++
  "  \"reasoning\": \"분석 근거\",\n" ++
  "  \"intent_scores\": \x7b\n" ++
  "    \"question_how\": 0.85,\n" ++
  "    \"question_what\": 0.1,\n" ++
  "    \"request_help\": 0.05\n" ++
  "  \x7d\n" ++
  "\x7d\n" ++
  "\n" ++
  "분석 기준:\n" ++
  "- intent_type: 주요 의도 (질문 방법, 질문 내용, 도움 요청, 문제 신고, 상태 문의, 일반 질문)\n" ++
  "- priority: P1(긴급), P2(높음), P3(보통), P4(낮음)\n" ++
  "- emotional_tone: 감정 상태\n" ++
  "- keywords: 중요 키워드와 가중치\n" ++
  "- confidence: 분석 신뢰도 (0.0-1.0)"

/-- Source: `func (c *vertexAIClient) buildPrompt(request *AnalyzeRequest) string`. -/
def vertexAIClient.buildPrompt {σ : Type} (_c : vertexAIClient σ) (request : AnalyzeRequest) :
    String :=
  let contextStr :=
    if request.ContextMessages.length > 0 then
      fmt.Sprintf "\n\n이전 대화 맥락:\n%s" [strings.Join request.ContextMessages "\n"]
    else ""
  fmt.Sprintf promptFormat [request.Text, request.Domain, contextStr]

/-- The loop of `parseGeminiResponse` over the parts: the text of the first part whose
text is not empty, and the empty string (the zero value of `responseText`) when there is
none. The loop reads `part.Text` of every part up to that one; the result `none` stands for
the panic of reading it through a nil part. -/
def responseTextOf : List (Option genai.Part) → Option String
  | [] => some ""
  | none :: _ => none
  | some part :: rest => if part.Text ≠ "" then some part.Text else responseTextOf rest

/-- The last step of `parseGeminiResponse` (source lines 234 to 253): `json.Unmarshal` of the
extracted text and the construction of the `AnalyzeResponse`. -/
def vertexAIClient.decodeJSON {σ : Type} (c : vertexAIClient σ) (jsonText : String) :
    Res GoError AnalyzeResponse :=
  match c.Unmarshal jsonText with
  | .error err => .error (fmt.Errorf "failed to parse JSON response: %w" [err])
  | .ok g =>
    .ok
      { IntentType := g.IntentType
        DomainSpecificIntent := g.DomainSpecificIntent
        Keywords := g.Keywords
        Priority := g.Priority
        Confidence := g.Confidence
        EmotionalTone := g.EmotionalTone
        UrgencyIndicators := g.UrgencyIndicators
        Reasoning := g.Reasoning
        IntentScores := g.IntentScores
        ProcessingTimeMs := c.sinceMs }

/-- Source: `func (c *vertexAIClient) parseGeminiResponse(resp, startTime)`. The first
candidate is read through `candidate.Content`, which panics when that candidate is nil. -/
def vertexAIClient.parseGeminiResponse {σ : Type} (c : vertexAIClient σ)
    (resp : Option genai.GenerateContentResponse) : Res GoError AnalyzeResponse :=
  match resp with
  | none => .error (fmt.Errorf "no candidates in response" [])
  | some r =>
    match r.Candidates with
    | [] => .error (fmt.Errorf "no candidates in response" [])
    | none :: _ => .panic
    | some candidate :: _ =>
      match candidate.Content with
      | none => .error (fmt.Errorf "no content parts in response" [])
      | some content =>
        if content.Parts.length = 0 then
          .error (fmt.Errorf "no content parts in response" [])
        else
          match responseTextOf content.Parts with
          | none => .panic
          | some responseText =>
            if responseText = "" then .error (fmt.Errorf "empty response text" [])
            else
              let jsonStart := strings.Index responseText "\x7b"
              let jsonEnd := strings.LastIndex responseText "\x7d"
              if jsonStart = -1 ∨ jsonEnd = -1 then
                .error (fmt.Errorf "no valid JSON found in response" [])
              else
                match goSlice responseText jsonStart (jsonEnd + 1) with
                | none => .panic
                | some jsonText => c.decodeJSON jsonText

/-- Source: `func (c *vertexAIClient) AnalyzeIntent(ctx, request)`. -/
def vertexAIClient.AnalyzeIntent {σ : Type} (c : vertexAIClient σ) (request : AnalyzeRequest)
    (w : σ) : Res GoError AnalyzeResponse × σ :=
  let prompt := c.buildPrompt request
  let parts := [some (genai.NewPartFromText prompt)]
  let contents : List (Option genai.Content) := [some { Parts := parts }]
  match c.GenerateContent c.modelName contents w with
  | (.error err, w1) => (.error (fmt.Errorf "vertex AI Gemini generation failed: %w" [err]), w1)
  | (.panic, w1) => (.panic, w1)
  | (.ok resp, w1) =>
    match c.parseGeminiResponse resp with
    | .error err => (.error (fmt.Errorf "failed to parse Gemini response: %w" [err]), w1)
    | .panic => (.panic, w1)
    | .ok response => (.ok response, w1)

/-- Source: `func (c *vertexAIClient) IsHealthy(ctx) bool`. The result `none` stands for a
panic of the probe call, which the source does not recover. -/
def vertexAIClient.IsHealthy {σ : Type} (c : vertexAIClient σ) (w : σ) : Option Bool × σ :=
  let testRequest : AnalyzeRequest :=
    { Text := "test", Domain := "health_check", UserID := "", ContextMessages := [],
      Metadata := [] }
  match c.AnalyzeIntent testRequest w with
  | (.ok _, w1) => (some true, w1)
  | (.error _, w1) => (some false, w1)
  | (.panic, w1) => (none, w1)

/-- The `Client` interface value of a `vertexAIClient` (what `NewClient` returns). -/
def vertexAIClient.toClient {σ : Type} (c : vertexAIClient σ) : Client σ :=
  { AnalyzeIntent := c.AnalyzeIntent, IsHealthy := c.IsHealthy }

end gemini

namespace service

/-- Source: `type Priority int32`. -/
structure Priority where
  val : Int
deriving DecidableEq, Repr

def PriorityUnspecified : Priority := ⟨0⟩
def PriorityLow : Priority := ⟨1⟩
def PriorityMedium : Priority := ⟨2⟩
def PriorityHigh : Priority := ⟨3⟩
def PriorityUrgent : Priority := ⟨4⟩
def PriorityCritical : Priority := ⟨5⟩

/-- Source: `func (p Priority) String() string`. -/
def Priority.String (p : Priority) : String :=
  if p = PriorityLow then "P4"
  else if p = PriorityMedium then "P3"
  else if p = PriorityHigh then "P2"
  else if p = PriorityUrgent then "P1"
  else if p = PriorityCritical then "P0"
  else "P3"

/-- Source: `type EmotionalTone int32`. -/
structure EmotionalTone where
  val : Int
deriving DecidableEq, Repr

def ToneNeutral : EmotionalTone := ⟨0⟩
def TonePositive : EmotionalTone := ⟨1⟩
def ToneNegative : EmotionalTone := ⟨2⟩
def ToneFrustrated : EmotionalTone := ⟨3⟩
def ToneUrgent : EmotionalTone := ⟨4⟩
def ToneGrateful : EmotionalTone := ⟨5⟩

/-- Source: `func (t EmotionalTone) String() string`. -/
def EmotionalTone.String (t : EmotionalTone) : String :=
  if t = TonePositive then "positive"
  else if t = ToneNegative then "negative"
  else if t = ToneFrustrated then "frustrated"
  else if t = ToneUrgent then "urgent"
  else if t = ToneGrateful then "grateful"
  else "neutral"

/-- Source: `func convertPriority(priorityStr string) Priority`. -/
def convertPriority (priorityStr : String) : Priority :=
  if priorityStr = "P0" then PriorityCritical
  else if priorityStr = "P1" then PriorityUrgent
  else if priorityStr = "P2" then PriorityHigh
  else if priorityStr = "P3" then PriorityMedium
  else if priorityStr = "P4" then PriorityLow
  else PriorityMedium

/-- Source: `func convertEmotionalTone(toneStr string) EmotionalTone`. -/
def convertEmotionalTone (toneStr : String) : EmotionalTone :=
  if toneStr = "positive" then TonePositive
  else if toneStr = "negative" then ToneNegative
  else if toneStr = "frustrated" then ToneFrustrated
  else if toneStr = "urgent" then ToneUrgent
  else if toneStr = "grateful" then ToneGrateful
  else ToneNeutral

/-- Source: `type AnalyzeIntentRequest struct`; `Timestamp` is a clock reading. -/
structure AnalyzeIntentRequest where
  Text : String
  Domain : String
  UserID : String
  SessionID : String
  ContextMessages : List String
  Metadata : List (String × String)
  Timestamp : Int

/-- Source: `type Keyword struct`. -/
structure Keyword where
  Text : String
  Weight : Float
  Category : String

/-- Source: `type ProcessingMetrics struct`. -/
structure ProcessingMetrics where
  ProcessingTimeMs : Int
  GeminiAPITimeMs : Int
  CacheHitCount : Int
  ModelVersion : String
  CacheHit : Bool

/-- Source: `type AnalyzeIntentResponse struct`. -/
structure AnalyzeIntentResponse where
  IntentType : String
  DomainSpecificIntent : String
  Keywords : List Keyword
  Confidence : Float
  Priority : Priority
  EmotionalTone : EmotionalTone
  IntentScores : List (String × Float)
  Reasoning : String
  Metrics : ProcessingMetrics

/-- Source: `type IntentService struct`. `sinceMs` is the reading of
`time.Since(startTime).Milliseconds()` taken when the response is built. -/
structure IntentService (σ : Type) where
  geminiClient : gemini.Client σ
  sinceMs : Int

/-- Source: `func convertKeywords(geminiKeywords []gemini.Keyword) []*Keyword`. -/
def convertKeywords (geminiKeywords : List gemini.Keyword) : List Keyword :=
  geminiKeywords.map fun k => { Text := k.Text, Weight := k.Weight, Category := k.Category }

/-- Source: `func (s *IntentService) AnalyzeIntent(ctx, req)`. -/
def IntentService.AnalyzeIntent {σ : Type} (s : IntentService σ) (req : AnalyzeIntentRequest)
    (w : σ) : Res GoError AnalyzeIntentResponse × σ :=
  let geminiRequest : gemini.AnalyzeRequest :=
    { Text := req.Text
      Domain := req.Domain
      UserID := req.UserID
      ContextMessages := req.ContextMessages
      Metadata := req.Metadata }
  match s.geminiClient.AnalyzeIntent geminiRequest w with
  | (.error err, w1) => (.error err, w1)
  | (.panic, w1) => (.panic, w1)
  | (.ok geminiResponse, w1) =>
    (.ok
      { IntentType := geminiResponse.IntentType
        DomainSpecificIntent := geminiResponse.DomainSpecificIntent
        Keywords := convertKeywords geminiResponse.Keywords
        Priority := convertPriority geminiResponse.Priority
        Confidence := geminiResponse.Confidence
        EmotionalTone := convertEmotionalTone geminiResponse.EmotionalTone
        IntentScores := geminiResponse.IntentScores
        Reasoning := geminiResponse.Reasoning
        Metrics :=
          { ProcessingTimeMs := s.sinceMs
            GeminiAPITimeMs := geminiResponse.ProcessingTimeMs
            CacheHitCount := 0
            ModelVersion := "gemini-1.5-pro-001"
            CacheHit := false } }, w1)

/-- Source: `func (s *IntentService) IsHealthy(ctx) bool`. -/
def IntentService.IsHealthy {σ : Type} (s : IntentService σ) (w : σ) : Option Bool × σ :=
  s.geminiClient.IsHealthy w

end service


namespace codes

/-- The gRPC status codes of `google.golang.org/grpc/codes`. -/
inductive Code where
  | OK | Canceled | Unknown | InvalidArgument | DeadlineExceeded | NotFound | AlreadyExists
  | PermissionDenied | ResourceExhausted | FailedPrecondition | Aborted | OutOfRange
  | Unimplemented | Internal | Unavailable | DataLoss | Unauthenticated
deriving DecidableEq, Repr

end codes

namespace status

/-- The error value built by `status.Error`: a code and a message. -/
structure Status where
  Code : codes.Code
  Message : String
deriving DecidableEq, Repr

/-- Go `status.Error(c, msg)` for a code other than `OK`. -/
def Error (c : codes.Code) (msg : String) : Status := ⟨c, msg⟩

end status

namespace intentpb

/-- Modelled from the spec: the generated transport enumeration `intentpb.Priority` is not
among the sources. Its five named values are the constants the handler returns; the
unspecified value is the zero value that the internal `PriorityUnspecified` mirrors. -/
inductive Priority where
  | PRIORITY_UNSPECIFIED | PRIORITY_LOW | PRIORITY_MEDIUM | PRIORITY_HIGH | PRIORITY_URGENT
  | PRIORITY_CRITICAL
deriving DecidableEq, Repr

/-- Modelled from the spec: the generated transport enumeration `intentpb.EmotionalTone` is
not among the sources. Its six named values are the constants the handler returns; a
further unspecified value is kept apart from them. -/
inductive EmotionalTone where
  | TONE_UNSPECIFIED | TONE_NEUTRAL | TONE_POSITIVE | TONE_NEGATIVE | TONE_FRUSTRATED
  | TONE_URGENT | TONE_GRATEFUL
deriving DecidableEq, Repr

/-- Modelled from the spec: the generated enumeration `HealthCheckResponse_ServingStatus`,
with the two constants the handler returns and the unknown zero value. -/
inductive HealthCheckResponse_ServingStatus where
  | UNKNOWN | SERVING | NOT_SERVING
deriving DecidableEq, Repr

/-- Modelled from the spec: the generated message `intentpb.IntentRequest`, with the fields
the handler reads. -/
structure IntentRequest where
  Text : String
  Domain : String
  UserId : String
  SessionId : String
  ContextMessages : List String
  Metadata : List (String × String)

/-- Modelled from the spec: the generated message `intentpb.Keyword`. -/
structure Keyword where
  Text : String
  Weight : Float
  Category : String

/-- Modelled from the spec: the generated message `intentpb.ProcessingMetrics`. -/
structure ProcessingMetrics where
  ProcessingTimeMs : Int
  GeminiApiTimeMs : Int
  CacheHitCount : Int
  ModelVersion : String
  CacheHit : Bool

/-- Modelled from the spec: the generated message `intentpb.IntentResponse`, with the fields
the handler writes. -/
structure IntentResponse where
  IntentType : String
  DomainSpecificIntent : String
  Keywords : List Keyword
  Confidence : Float
  Priority : Priority
  EmotionalTone : EmotionalTone
  IntentScores : List (String × Float)
  Reasoning : String
  Metrics : ProcessingMetrics

/-- Modelled from the spec: the generated message `intentpb.HealthCheckResponse`. -/
structure HealthCheckResponse where
  Status : HealthCheckResponse_ServingStatus
  Message : String
  Details : List (String × String)

end intentpb

namespace handler

/-- Source: `type IntentAnalyzerServer struct`. `now` is the reading of `time.Now()` stored
in the service request and `timestamp` the text of `time.Now().Format(time.RFC3339)`. -/
structure IntentAnalyzerServer (σ : Type) where
  intentService : service.IntentService σ
  now : Int
  timestamp : String

/-- Source: `func convertToProtoKeywords(keywords []*service.Keyword) []*intentpb.Keyword`. -/
def convertToProtoKeywords (keywords : List service.Keyword) : List intentpb.Keyword :=
  keywords.map fun k => { Text := k.Text, Weight := k.Weight, Category := k.Category }

/-- Source: `func convertToProtoPriority(priority service.Priority) intentpb.Priority`. -/
def convertToProtoPriority (priority : service.Priority) : intentpb.Priority :=
  if priority = service.PriorityLow then .PRIORITY_LOW
  else if priority = service.PriorityMedium then .PRIORITY_MEDIUM
  else if priority = service.PriorityHigh then .PRIORITY_HIGH
  else if priority = service.PriorityUrgent then .PRIORITY_URGENT
  else if priority = service.PriorityCritical then .PRIORITY_CRITICAL
  else .PRIORITY_MEDIUM

/-- Source: `func convertToProtoEmotionalTone(tone service.EmotionalTone)`. -/
def convertToProtoEmotionalTone (tone : service.EmotionalTone) : intentpb.EmotionalTone :=
  if tone = service.TonePositive then .TONE_POSITIVE
  else if tone = service.ToneNegative then .TONE_NEGATIVE
  else if tone = service.ToneFrustrated then .TONE_FRUSTRATED
  else if tone = service.ToneUrgent then .TONE_URGENT
  else if tone = service.ToneGrateful then .TONE_GRATEFUL
  else .TONE_NEUTRAL

/-- Source: `func (s *IntentAnalyzerServer) AnalyzeIntent(ctx, req)`. -/
def IntentAnalyzerServer.AnalyzeIntent {σ : Type} (s : IntentAnalyzerServer σ)
    (req : intentpb.IntentRequest) (w : σ) : Res status.Status intentpb.IntentResponse × σ :=
  if req.Text = "" then
    (.error (status.Error codes.Code.InvalidArgument "text field is required"), w)
  else
    let serviceRequest : service.AnalyzeIntentRequest :=
      { Text := req.Text
        Domain := req.Domain
        UserID := req.UserId
        SessionID := req.SessionId
        ContextMessages := req.ContextMessages
        Metadata := req.Metadata
        Timestamp := s.now }
    match s.intentService.AnalyzeIntent serviceRequest w with
    | (.error _, w1) =>
      (.error (status.Error codes.Code.Internal "intent analysis failed"), w1)
    | (.panic, w1) => (.panic, w1)
    | (.ok serviceResponse, w1) =>
      (.ok
        { IntentType := serviceResponse.IntentType
          DomainSpecificIntent := serviceResponse.DomainSpecificIntent
          Keywords := convertToProtoKeywords serviceResponse.Keywords
          Confidence := serviceResponse.Confidence
          Priority := convertToProtoPriority serviceResponse.Priority
          EmotionalTone := convertToProtoEmotionalTone serviceResponse.EmotionalTone
          IntentScores := serviceResponse.IntentScores
          Reasoning := serviceResponse.Reasoning
          Metrics :=
            { ProcessingTimeMs := serviceResponse.Metrics.ProcessingTimeMs
              GeminiApiTimeMs := serviceResponse.Metrics.GeminiAPITimeMs
              CacheHitCount := serviceResponse.Metrics.CacheHitCount
              ModelVersion := serviceResponse.Metrics.ModelVersion
              CacheHit := serviceResponse.Metrics.CacheHit } }, w1)

/-- Source: `func (s *IntentAnalyzerServer) HealthCheck(ctx, req)`. -/
def IntentAnalyzerServer.HealthCheck {σ : Type} (s : IntentAnalyzerServer σ) (w : σ) :
    Res status.Status intentpb.HealthCheckResponse × σ :=
  match s.intentService.IsHealthy w with
  | (none, w1) => (.panic, w1)
  | (some isHealthy, w1) =>
    let st : intentpb.HealthCheckResponse_ServingStatus :=
      if isHealthy then .SERVING else .NOT_SERVING
    let message := if isHealthy then "Service is healthy" else "Service is unhealthy"
    (.ok
      { Status := st
        Message := message
        Details := [("timestamp", s.timestamp), ("service", "intent-analyzer"),
          ("version", "1.0.0")] }, w1)

end handler


/-! ## Closed enumerations -/

namespace service

/-- The five defined values of `Priority`. -/
def definedPriorities : List Priority :=
  [PriorityLow, PriorityMedium, PriorityHigh, PriorityUrgent, PriorityCritical]

/-- The six values of `EmotionalTone`. -/
def definedTones : List EmotionalTone :=
  [ToneNeutral, TonePositive, ToneNegative, ToneFrustrated, ToneUrgent, ToneGrateful]

/-- The short codes of the five defined priorities. -/
def priorityCodes : List String := ["P0", "P1", "P2", "P3", "P4"]

/-- The codes of the six emotional tones. -/
def toneCodes : List String :=
  ["neutral", "positive", "negative", "frustrated", "urgent", "grateful"]

end service

namespace handler

/-- The correspondence between the internal priorities and the transport priorities. -/
def priorityTable : List (service.Priority × intentpb.Priority) :=
  [(service.PriorityLow, .PRIORITY_LOW), (service.PriorityMedium, .PRIORITY_MEDIUM),
    (service.PriorityHigh, .PRIORITY_HIGH), (service.PriorityUrgent, .PRIORITY_URGENT),
    (service.PriorityCritical, .PRIORITY_CRITICAL)]

/-- The correspondence between the internal tones and the transport tones. -/
def toneTable : List (service.EmotionalTone × intentpb.EmotionalTone) :=
  [(service.ToneNeutral, .TONE_NEUTRAL), (service.TonePositive, .TONE_POSITIVE),
    (service.ToneNegative, .TONE_NEGATIVE), (service.ToneFrustrated, .TONE_FRUSTRATED),
    (service.ToneUrgent, .TONE_URGENT), (service.ToneGrateful, .TONE_GRATEFUL)]

/-- The request that reaches the service for a transport request received at time `now`. -/
def serviceRequestOf (now : Int) (req : intentpb.IntentRequest) :
    service.AnalyzeIntentRequest :=
  { Text := req.Text
    Domain := req.Domain
    UserID := req.UserId
    SessionID := req.SessionId
    ContextMessages := req.ContextMessages
    Metadata := req.Metadata
    Timestamp := now }

/-- The request that reaches the gateway for a transport request. -/
def gatewayRequestOf (req : intentpb.IntentRequest) : gemini.AnalyzeRequest :=
  { Text := req.Text
    Domain := req.Domain
    UserID := req.UserId
    ContextMessages := req.ContextMessages
    Metadata := req.Metadata }

/-- The outbound signal of every downstream failure. -/
def internalFailure : status.Status := ⟨codes.Code.Internal, "intent analysis failed"⟩

/-- The outbound signal of a request without text. -/
def textRequired : status.Status := ⟨codes.Code.InvalidArgument, "text field is required"⟩

/-- The transport request of the end-to-end scenario. -/
def scenarioRequest : intentpb.IntentRequest :=
  { Text := "서버가 계속 멈춰요, 급해요", Domain := "infra", UserId := "", SessionId := "",
    ContextMessages := [], Metadata := [] }

/-- A structured reply with priority P1 and tone urgent. -/
def scenarioReply : gemini.AnalyzeResponse :=
  { IntentType := "report_issue", DomainSpecificIntent := "server_hang", Keywords := [],
    Priority := "P1", Confidence := 0.9, EmotionalTone := "urgent",
    UrgencyIndicators := ["급해요"], Reasoning := "", IntentScores := [],
    ProcessingTimeMs := 120 }

/-- A gateway that answers every request with the same result; its world is the number of
calls it has served. -/
def constClient (out : Res GoError gemini.AnalyzeResponse) : gemini.Client Nat :=
  { AnalyzeIntent := fun _ n => (out, n + 1)
    IsHealthy := fun n => (some true, n + 1) }

/-- A server over a gateway, with fixed clock readings. -/
def serverOf {σ : Type} (c : gemini.Client σ) : IntentAnalyzerServer σ :=
  { intentService := { geminiClient := c, sinceMs := 150 }, now := 1700000000000,
    timestamp := "2023-11-14T22:13:20Z" }

/-- The same server over the counting version of its gateway. -/
def IntentAnalyzerServer.counted {σ : Type} (h : IntentAnalyzerServer σ) :
    IntentAnalyzerServer (σ × Nat) :=
  { intentService :=
      { geminiClient := h.intentService.geminiClient.counted
        sinceMs := h.intentService.sinceMs }
    now := h.now
    timestamp := h.timestamp }

/-- A transport request without text. -/
def emptyRequest : intentpb.IntentRequest :=
  { Text := "", Domain := "infra", UserId := "u1", SessionId := "s1",
    ContextMessages := ["hello"], Metadata := [] }

end handler

namespace gemini

/-- A `vertexAIClient` whose external call always has the outcome `out` and whose
`json.Unmarshal` always fails with the text `bad`; its world counts the external calls. -/
def stubClient (out : Res GoError (Option genai.GenerateContentResponse)) (bad : GoError) :
    vertexAIClient Nat :=
  { projectID := "p", location := "l", modelName := "m"
    GenerateContent := fun _ _ n => (out, n + 1)
    Unmarshal := fun _ => .error bad
    sinceMs := 7 }

/-- A server over a `vertexAIClient` whose external call has the outcome `out`. -/
def failingServer (out : Res GoError (Option genai.GenerateContentResponse)) (bad : GoError) :
    handler.IntentAnalyzerServer Nat :=
  handler.serverOf (stubClient out bad).toClient

/-- The external call fails. -/
def callFailure : handler.IntentAnalyzerServer Nat :=
  failingServer (.error "rpc error: quota exceeded") ""

/-- The response has no candidates. -/
def noCandidates : handler.IntentAnalyzerServer Nat :=
  failingServer (.ok (some { Candidates := [] })) ""

/-- The first candidate has no content. -/
def noContent : handler.IntentAnalyzerServer Nat :=
  failingServer (.ok (some { Candidates := [some { Content := none }] })) ""

/-- Every part of the first candidate has empty text. -/
def emptyText : handler.IntentAnalyzerServer Nat :=
  failingServer
    (.ok (some { Candidates := [some { Content := some { Parts := [some ⟨""⟩, some ⟨""⟩] } }] }))
    ""

/-- The reply text has no brace. -/
def missingBrace : handler.IntentAnalyzerServer Nat :=
  failingServer
    (.ok (some { Candidates := [some { Content := some { Parts := [some ⟨"no json here"⟩] } }] }))
    ""

/-- The extracted text does not parse. -/
def parseFailure : handler.IntentAnalyzerServer Nat :=
  failingServer
    (.ok
      (some { Candidates := [some { Content := some { Parts := [some ⟨"\x7boops\x7d"⟩] } }] }))
    "invalid character"

/-- The character `\x7b`, the text of the first argument of `strings.Index`. -/
def openBrace : Char := Char.ofNat 123

/-- The character `\x7d`, the text of the first argument of `strings.LastIndex`. -/
def closeBrace : Char := Char.ofNat 125

/-- The reply of the extraction example: commentary, a fenced block with the object, and a
closing remark. -/
def fencedReply : String :=
  "Here is the result:\n```json\n" ++
  "\x7b\"intent_type\":\"request_help\",\"priority\":\"P1\",...\x7d" ++
  "\n```\nThanks!"

/-- The object inside the fenced block of `fencedReply`. -/
def fencedObject : String :=
  "\x7b\"intent_type\":\"request_help\",\"priority\":\"P1\",...\x7d"

/-- The fixed text of the prompt before the message text. -/
def promptHead : String :=
  "사용자의 메시지를 분석하여 의도, 우선순위, 감정 톤, 키워드를 파악해주세요.\n" ++
  "\n" ++
  "분석할 메시지: \""

/-- The fixed text of the prompt between the message text and the domain. -/
def promptMid : String := "\"\n도메인: "

/-- The fixed instruction block of the prompt: everything after the context block. -/
def promptInstr : String :=
  "\n" ++
  "\n" ++
  "다음 JSON 형식으로 정확히 응답해주세요:\n" ++
  "\x7b\n" ++
  "  \"intent_type\": \"question_how|question_what|request_help|report_issue|ask_status|question_general\",\n" ++
  "  \"domain_specific_intent\": \"구체적인 도메인별 의도\",\n" ++
  "  \"keywords\": [\n" ++
  "    \x7b\"text\": \"키워드\", \"weight\": 0.9, \"category\": \"technical|action|domain\"\x7d\n" ++
  "  ],\n" ++
  "  \"priority\": \"P1|P2|P3|P4\",\n" ++
  "  \"confidence\": 0.85,\n" ++
  "  \"emotional_tone\": \"neutral|positive|negative|frustrated|urgent|grateful\",\n" ++
  "  \"urgency_indicators\": [\"급해\", \"urgent\"],\n" ++
  "  \"reasoning\": \"분석 근거\",\n" ++
  "  \"intent_scores\": \x7b\n" ++
  "    \"question_how\": 0.85,\n" ++
  "    \"question_what\": 0.1,\n" ++
  "    \"request_help\": 0.05\n" ++
  "  \x7d\n" ++
  "\x7d\n" ++
  "\n" ++
  "분석 기준:\n" ++
  "- intent_type: 주요 의도 (질문 방법, 질문 내용, 도움 요청, 문제 신고, 상태 문의, 일반 질문)\n" ++
  "- priority: P1(긴급), P2(높음), P3(보통), P4(낮음)\n" ++
  "- emotional_tone: 감정 상태\n" ++
  "- keywords: 중요 키워드와 가중치\n" ++
  "- confidence: 분석 신뢰도 (0.0-1.0)"

/-- The fixed header of the context block. -/
def contextHeader : String := "\n\n이전 대화 맥락:\n"

/-- The context block of the prompt: empty without context messages, and otherwise the
header followed by the messages in their order, separated by one newline. -/
def contextBlock (msgs : List String) : String :=
  if msgs = [] then "" else contextHeader ++ "\n".intercalate msgs

/-- Two requests with the same text, domain and context messages and different user and
metadata. -/
def promptRequestA : AnalyzeRequest :=
  { Text := "배포가 실패했어요", Domain := "ci", UserID := "alice",
    ContextMessages := ["first", "second"], Metadata := [("k", "v")] }

/-- The second of the two requests. -/
def promptRequestB : AnalyzeRequest :=
  { Text := "배포가 실패했어요", Domain := "ci", UserID := "bob",
    ContextMessages := ["first", "second"], Metadata := [] }

/-- The lines of a text: the parts between newline characters. -/
def splitLines : List Char → List (List Char)
  | [] => [[]]
  | c :: cs =>
    if c = Char.ofNat 10 then [] :: splitLines cs
    else
      match splitLines cs with
      | [] => [[c]]
      | l :: ls => (c :: l) :: ls

/-- The schema line of a field in an instruction block: the first line that contains the
quoted field name followed by a colon. -/
def schemaLine (field : String) (block : String) : Option String :=
  ((splitLines block.data).find? fun l =>
    decide (0 ≤ strings.indexAux l ("\"" ++ field ++ "\":").data)).map String.mk

/-- The priority schema line of the instruction block. -/
def prioritySchemaLine : String := "  \"priority\": \"P1|P2|P3|P4\","

/-- The emotional_tone schema line of the instruction block. -/
def toneSchemaLine : String :=
  "  \"emotional_tone\": \"neutral|positive|negative|frustrated|urgent|grateful\","

/-- The request of the health probe, as `IsHealthy` builds it. -/
def probeRequest : AnalyzeRequest :=
  { Text := "test", Domain := "health_check", UserID := "", ContextMessages := [],
    Metadata := [] }

/-- A reply text in which the only closing brace precedes the only opening brace, with one
character between them. -/
def reversedBraces : String := "\x7d \x7b"

/-- A response with one candidate whose content has the given parts, none of them nil. -/
def responseOfParts (parts : List genai.Part) : Option genai.GenerateContentResponse :=
  some { Candidates := [some { Content := some { Parts := parts.map some } }] }

/-- A response with one candidate whose content holds a nil part before a part with the
text of an empty object. -/
def nilPartResponse : Option genai.GenerateContentResponse :=
  some { Candidates := [some { Content := some { Parts := [none, some ⟨"\x7b\x7d"⟩] } }] }

/-- A response whose first candidate is nil. -/
def nilCandidateResponse : Option genai.GenerateContentResponse :=
  some { Candidates := [none] }

end gemini

namespace service

theorem convertPriority_mem (s : String) : convertPriority s ∈ definedPriorities := by
  unfold convertPriority definedPriorities
  split_ifs <;> simp

theorem convertEmotionalTone_mem (s : String) : convertEmotionalTone s ∈ definedTones := by
  unfold convertEmotionalTone definedTones
  split_ifs <;> simp

/-- C4: each of the five defined priorities is recovered from its short code, the short
codes are P0 for Critical, P1 for Urgent, P2 for High, P3 for Medium and P4 for Low, and
two defined priorities with the same short code are equal. -/
theorem convertPriority_String_roundtrip (p : Priority) (hp : p ∈ definedPriorities) :
    convertPriority p.String = p ∧
    (PriorityCritical.String = "P0" ∧ PriorityUrgent.String = "P1" ∧
      PriorityHigh.String = "P2" ∧ PriorityMedium.String = "P3" ∧
      PriorityLow.String = "P4") ∧
    ∀ q ∈ definedPriorities, q.String = p.String → q = p := by
  simp only [definedPriorities, List.mem_cons, List.mem_singleton, List.not_mem_nil,
    or_false] at hp
  rcases hp with rfl | rfl | rfl | rfl | rfl <;> decide

theorem convertPriority_String_roundtrip_witness :
    PriorityUrgent ∈ definedPriorities ∧ convertPriority PriorityUrgent.String = PriorityUrgent ∧
    ∀ q ∈ definedPriorities, q.String = PriorityUrgent.String → q = PriorityUrgent :=
  ⟨by decide, (convertPriority_String_roundtrip PriorityUrgent (by decide)).1,
    (convertPriority_String_roundtrip PriorityUrgent (by decide)).2.2⟩

/-- C5: every string other than the five short codes converts to Medium, and that result
has the short code P3. -/
theorem convertPriority_fallback (s : String) (hs : s ∉ priorityCodes) :
    convertPriority s = PriorityMedium ∧ (convertPriority s).String = "P3" := by
  simp only [priorityCodes, List.mem_cons, List.mem_singleton, List.not_mem_nil, or_false,
    not_or] at hs
  obtain ⟨h0, h1, h2, h3, h4⟩ := hs
  have h : convertPriority s = PriorityMedium := by
    simp [convertPriority, h0, h1, h2, h4]
  rw [h]
  exact ⟨rfl, by decide⟩

theorem convertPriority_fallback_witness :
    ("" ∉ priorityCodes ∧ convertPriority "" = PriorityMedium) ∧
    ("p1" ∉ priorityCodes ∧ convertPriority "p1" = PriorityMedium) ∧
    (" P1" ∉ priorityCodes ∧ convertPriority " P1" = PriorityMedium ∧
      (convertPriority " P1").String = "P3") :=
  ⟨⟨by decide, (convertPriority_fallback "" (by decide)).1⟩,
    ⟨by decide, (convertPriority_fallback "p1" (by decide)).1⟩,
    ⟨by decide, convertPriority_fallback " P1" (by decide)⟩⟩

/-- C6: each of the six emotional tones is recovered from its code, and every string other
than the six codes converts to Neutral. -/
theorem convertEmotionalTone_correspondence (t : EmotionalTone) (ht : t ∈ definedTones)
    (s : String) (hs : s ∉ toneCodes) :
    convertEmotionalTone t.String = t ∧ t.String ∈ toneCodes ∧
    convertEmotionalTone s = ToneNeutral := by
  refine ⟨?_, ?_, ?_⟩
  · simp only [definedTones, List.mem_cons, List.mem_singleton, List.not_mem_nil,
      or_false] at ht
    rcases ht with rfl | rfl | rfl | rfl | rfl | rfl <;> decide
  · simp only [definedTones, List.mem_cons, List.mem_singleton, List.not_mem_nil,
      or_false] at ht
    rcases ht with rfl | rfl | rfl | rfl | rfl | rfl <;> decide
  · simp only [toneCodes, List.mem_cons, List.mem_singleton, List.not_mem_nil, or_false,
      not_or] at hs
    obtain ⟨_, h1, h2, h3, h4, h5⟩ := hs
    simp [convertEmotionalTone, h1, h2, h3, h4, h5]

theorem convertEmotionalTone_correspondence_witness :
    ToneGrateful ∈ definedTones ∧ "" ∉ toneCodes ∧
    convertEmotionalTone ToneGrateful.String = ToneGrateful ∧
    ToneGrateful.String ∈ toneCodes ∧ convertEmotionalTone "" = ToneNeutral :=
  ⟨by decide, by decide, convertEmotionalTone_correspondence ToneGrateful (by decide) ""
    (by decide)⟩

end service

/-! ## Offsets of a character in a text -/

namespace strings

theorem indexAux_cons (c x : Char) (xs : List Char) :
    indexAux (x :: xs) [c] =
      if c = x then 0 else if indexAux xs [c] = -1 then -1 else indexAux xs [c] + 1 := by
  simp [indexAux, List.isPrefixOf]

theorem lastIndexAux_cons (c x : Char) (xs : List Char) :
    lastIndexAux (x :: xs) [c] =
      if lastIndexAux xs [c] ≠ -1 then lastIndexAux xs [c] + 1
      else if c = x then 0 else -1 := by
  simp [lastIndexAux, List.isPrefixOf]

theorem indexAux_nil (c : Char) : indexAux [] [c] = -1 := by
  simp [indexAux]

theorem lastIndexAux_nil (c : Char) : lastIndexAux [] [c] = -1 := by
  simp [lastIndexAux]

theorem indexAux_of_not_mem (c : Char) (l : List Char) (h : c ∉ l) : indexAux l [c] = -1 := by
  induction l with
  | nil => exact indexAux_nil c
  | cons x xs ih =>
    have hx : c ≠ x := fun e => h (e ▸ List.mem_cons_self _ _)
    have hxs : c ∉ xs := fun e => h (List.mem_cons_of_mem _ e)
    rw [indexAux_cons, if_neg hx, ih hxs]
    rfl

theorem lastIndexAux_of_not_mem (c : Char) (l : List Char) (h : c ∉ l) :
    lastIndexAux l [c] = -1 := by
  induction l with
  | nil => exact lastIndexAux_nil c
  | cons x xs ih =>
    have hx : c ≠ x := fun e => h (e ▸ List.mem_cons_self _ _)
    have hxs : c ∉ xs := fun e => h (List.mem_cons_of_mem _ e)
    rw [lastIndexAux_cons, ih hxs, if_neg hx]
    rfl

theorem indexAux_append (c : Char) (pre t : List Char) (h : c ∉ pre) :
    indexAux (pre ++ c :: t) [c] = (pre.length : Int) := by
  induction pre with
  | nil => simp [indexAux_cons]
  | cons x xs ih =>
    have hx : c ≠ x := fun e => h (e ▸ List.mem_cons_self _ _)
    have hxs : c ∉ xs := fun e => h (List.mem_cons_of_mem _ e)
    rw [List.cons_append, indexAux_cons, if_neg hx, ih hxs]
    have : (xs.length : Int) ≠ -1 := by omega
    simp [this]

theorem lastIndexAux_append (c : Char) (pre suf : List Char) (h : c ∉ suf) :
    lastIndexAux (pre ++ c :: suf) [c] = (pre.length : Int) := by
  induction pre with
  | nil => simp [lastIndexAux_cons, lastIndexAux_of_not_mem c suf h]
  | cons x xs ih =>
    rw [List.cons_append, lastIndexAux_cons, ih]
    have : (xs.length : Int) ≠ -1 := by omega
    simp [this]

/-- A text that contains a character splits at the first occurrence of it. -/
theorem split_first (c : Char) (l : List Char) (h : c ∈ l) :
    ∃ pre t, l = pre ++ c :: t ∧ c ∉ pre := by
  induction l with
  | nil => cases h
  | cons x xs ih =>
    by_cases hx : c = x
    · exact ⟨[], xs, by simp [hx], by simp⟩
    · have hxs : c ∈ xs := by
        rcases List.mem_cons.1 h with e | e
        · exact absurd e hx
        · exact e
      obtain ⟨pre, t, e, hn⟩ := ih hxs
      refine ⟨x :: pre, t, by simp [e], ?_⟩
      simp only [List.mem_cons, not_or]
      exact ⟨hx, hn⟩

/-- A text that contains a character splits at the last occurrence of it. -/
theorem split_last (c : Char) (l : List Char) (h : c ∈ l) :
    ∃ pre t, l = pre ++ c :: t ∧ c ∉ t := by
  induction l with
  | nil => cases h
  | cons x xs ih =>
    by_cases hxs : c ∈ xs
    · obtain ⟨pre, t, e, hn⟩ := ih hxs
      exact ⟨x :: pre, t, by simp [e], hn⟩
    · have hx : c = x := by
        rcases List.mem_cons.1 h with e | e
        · exact e
        · exact absurd e hxs
      exact ⟨[], xs, by simp [hx], hxs⟩

end strings

/-! ## Formatting -/

namespace fmt

theorem format_cons_other (verbs : List Char) (x : Char) (xs : List Char) (args : List String)
    (hx : x ≠ Char.ofNat 37) : format verbs (x :: xs) args = x :: format verbs xs args := by
  conv_lhs => unfold format
  rw [if_neg hx]

theorem format_cons_verb (verbs : List Char) (v : Char) (rest : List Char) (a : String)
    (as : List String) (hv : v ∈ verbs) (hv2 : v ≠ Char.ofNat 37) :
    format verbs (Char.ofNat 37 :: v :: rest) (a :: as) = a.data ++ format verbs rest as := by
  conv_lhs => unfold format
  simp only [if_true, hv2, if_false, hv]

theorem format_literal (verbs : List Char) (lit : List Char) (args : List String)
    (h : Char.ofNat 37 ∉ lit) : format verbs lit args = lit := by
  induction lit with
  | nil => rfl
  | cons x xs ih =>
    have hx : x ≠ Char.ofNat 37 := fun e => h (e ▸ List.mem_cons_self _ _)
    have hxs : Char.ofNat 37 ∉ xs := fun e => h (List.mem_cons_of_mem _ e)
    rw [format_cons_other verbs x xs args hx, ih hxs]

theorem format_verb (verbs : List Char) (lit rest : List Char) (v : Char) (a : String)
    (as : List String) (h : Char.ofNat 37 ∉ lit) (hv : v ∈ verbs) (hv2 : v ≠ Char.ofNat 37) :
    format verbs (lit ++ Char.ofNat 37 :: v :: rest) (a :: as) =
      lit ++ a.data ++ format verbs rest as := by
  induction lit with
  | nil =>
    rw [List.nil_append, format_cons_verb verbs v rest a as hv hv2]
    rfl
  | cons x xs ih =>
    have hx : x ≠ Char.ofNat 37 := fun e => h (e ▸ List.mem_cons_self _ _)
    have hxs : Char.ofNat 37 ∉ xs := fun e => h (List.mem_cons_of_mem _ e)
    rw [List.cons_append, format_cons_other verbs x _ _ hx, ih hxs]
    rfl

end fmt

namespace strings

theorem intercalate_go_append (sep : String) (l : List String) (acc a : String) :
    String.intercalate.go (acc ++ a) sep l = acc ++ String.intercalate.go a sep l := by
  induction l generalizing a with
  | nil => rfl
  | cons b rest ih =>
    simp only [String.intercalate.go]
    rw [String.append_assoc acc a sep, String.append_assoc acc (a ++ sep) b, ih]

/-- The model of `strings.Join` is the library function that joins texts with a separator. -/
theorem Join_eq_intercalate (l : List String) (sep : String) : Join l sep = sep.intercalate l := by
  induction l with
  | nil => rfl
  | cons a rest ih =>
    cases rest with
    | nil => rfl
    | cons b rest1 =>
      rw [Join, ih]
      simp only [String.intercalate, String.intercalate.go]
      rw [String.append_assoc a sep b, intercalate_go_append, String.append_assoc,
        intercalate_go_append]

end strings

/-! ## Model gateway: reply extraction and payload extraction -/

namespace gemini

theorem goSlice_middle (raw : String) (pre payload suf : List Char)
    (h : raw.data = pre ++ payload ++ suf) :
    goSlice raw (pre.length : Int) ((pre.length : Int) + (payload.length : Int)) =
      some ⟨payload⟩ := by
  obtain ⟨d⟩ := raw
  simp only at h
  subst h
  have h1 : ((pre.length : Int) + (payload.length : Int)).toNat - (pre.length : Int).toNat =
      payload.length := by omega
  have h2 : (0 : Int) ≤ (pre.length : Int) ∧
      (pre.length : Int) ≤ (pre.length : Int) + (payload.length : Int) ∧
      (pre.length : Int) + (payload.length : Int) ≤
        ((String.mk (pre ++ payload ++ suf)).length : Int) := by
    simp only [String.length, List.length_append]
    omega
  unfold goSlice
  rw [if_pos h2, h1]
  simp only [Int.toNat_ofNat, List.append_assoc, List.drop_left, List.take_left]

theorem responseTextOf_skip (skipped : List genai.Part) (p : genai.Part)
    (later : List (Option genai.Part)) (hskip : ∀ q ∈ skipped, q.Text = "")
    (hp : p.Text ≠ "") :
    responseTextOf (skipped.map some ++ some p :: later) = some p.Text := by
  induction skipped with
  | nil => simp [responseTextOf, hp]
  | cons x xs ih =>
    have hx : x.Text = "" := hskip x (List.mem_cons_self _ _)
    have hxs : ∀ q ∈ xs, q.Text = "" := fun q hq => hskip q (List.mem_cons_of_mem _ hq)
    simp [responseTextOf, hx, ih hxs]

theorem responseTextOf_all_empty (parts : List genai.Part) (h : ∀ q ∈ parts, q.Text = "") :
    responseTextOf (parts.map some) = some "" := by
  induction parts with
  | nil => rfl
  | cons x xs ih =>
    have hx : x.Text = "" := h x (List.mem_cons_self _ _)
    have hxs : ∀ q ∈ xs, q.Text = "" := fun q hq => h q (List.mem_cons_of_mem _ hq)
    simp [responseTextOf, hx, ih hxs]

/-- The steps of `parseGeminiResponse` after the reply text is found. -/
theorem parseGeminiResponse_of_text {σ : Type} (c : vertexAIClient σ)
    (parts : List (Option genai.Part)) (others : List (Option genai.Candidate)) (raw : String)
    (hraw : responseTextOf parts = some raw) (hne : raw ≠ "") :
    c.parseGeminiResponse (some ⟨some ⟨some ⟨parts⟩⟩ :: others⟩) =
      if strings.Index raw "\x7b" = -1 ∨ strings.LastIndex raw "\x7d" = -1 then
        .error "no valid JSON found in response"
      else
        match goSlice raw (strings.Index raw "\x7b") (strings.LastIndex raw "\x7d" + 1) with
        | none => .panic
        | some jsonText => c.decodeJSON jsonText := by
  have hparts : parts.length ≠ 0 := by
    intro h0
    have : parts = [] := List.length_eq_zero.1 h0
    subst this
    exact hne (Option.some.inj hraw).symm
  have herr : fmt.Errorf "no valid JSON found in response" [] =
      "no valid JSON found in response" := by decide
  simp only [vertexAIClient.parseGeminiResponse, hparts, if_false, hraw, hne, herr]

theorem Index_openBrace (raw : String) (pre t : List Char) (h : raw.data = pre ++ openBrace :: t)
    (hn : openBrace ∉ pre) : strings.Index raw "\x7b" = (pre.length : Int) := by
  unfold strings.Index
  rw [h]
  exact strings.indexAux_append openBrace pre t hn

theorem LastIndex_closeBrace (raw : String) (pre t : List Char)
    (h : raw.data = pre ++ closeBrace :: t) (hn : closeBrace ∉ t) :
    strings.LastIndex raw "\x7d" = (pre.length : Int) := by
  unfold strings.LastIndex
  rw [h]
  exact strings.lastIndexAux_append closeBrace pre t hn

theorem fencedReply_payload {σ : Type} (c : vertexAIClient σ) :
    c.parseGeminiResponse (responseOfParts [⟨fencedReply⟩]) = c.decodeJSON fencedObject := by
  have h := parseGeminiResponse_of_text c [some ⟨fencedReply⟩] [] fencedReply (by decide)
    (by decide)
  have h1 : strings.Index fencedReply "\x7b" = 28 := by decide
  have h2 : strings.LastIndex fencedReply "\x7d" = 77 := by decide
  have h3 : goSlice fencedReply 28 (77 + 1) = some fencedObject := by decide
  rw [h1, h2, h3] at h
  exact h

/-- C7: when the reply text contains an opening and a closing brace and the first opening
brace is not after the last closing brace, the text handed to the decoder is the part from
the first opening brace to the last closing brace inclusive: the text is a part without
opening brace, then the payload, then a part without closing brace, and the payload starts
with an opening and ends with a closing brace; for the fenced example the payload is the
object. -/
theorem parseGeminiResponse_payload {σ : Type} (c : vertexAIClient σ) (raw : String)
    (hopen : openBrace ∈ raw.data) (hclose : closeBrace ∈ raw.data)
    (hord : strings.Index raw "\x7b" ≤ strings.LastIndex raw "\x7d") :
    (∃ pre payload suf : String,
      raw = pre ++ payload ++ suf ∧ openBrace ∉ pre.data ∧ closeBrace ∉ suf.data ∧
      payload.data.head? = some openBrace ∧ payload.data.getLast? = some closeBrace ∧
      strings.Index raw "\x7b" = (pre.length : Int) ∧
      strings.LastIndex raw "\x7d" + 1 = (pre.length : Int) + (payload.length : Int) ∧
      goSlice raw (strings.Index raw "\x7b") (strings.LastIndex raw "\x7d" + 1) =
        some payload ∧
      ∀ parts others, responseTextOf parts = some raw →
        c.parseGeminiResponse (some ⟨some ⟨some ⟨parts⟩⟩ :: others⟩) = c.decodeJSON payload) ∧
    c.parseGeminiResponse (responseOfParts [⟨fencedReply⟩]) = c.decodeJSON fencedObject := by
  refine ⟨?_, fencedReply_payload c⟩
  obtain ⟨pre, t, e1, hn1⟩ := strings.split_first openBrace raw.data hopen
  obtain ⟨p2, suf, e2, hn2⟩ := strings.split_last closeBrace raw.data hclose
  have hI := Index_openBrace raw pre t e1 hn1
  have hL := LastIndex_closeBrace raw p2 suf e2 hn2
  rw [hI, hL] at hord
  have hne : openBrace ≠ closeBrace := by decide
  have hmid : ∃ mid, p2 = pre ++ openBrace :: mid := by
    have e : pre ++ openBrace :: t = p2 ++ closeBrace :: suf := e1 ▸ e2
    rcases List.append_eq_append_iff.1 e with ⟨a, ha, hb⟩ | ⟨a, ha, hb⟩
    · cases a with
      | nil =>
        simp only [List.nil_append, List.cons.injEq] at hb
        exact absurd hb.1 hne
      | cons x xs =>
        simp only [List.cons_append, List.cons.injEq] at hb
        exact ⟨xs, by rw [ha, hb.1]⟩
    · cases a with
      | nil =>
        simp only [List.nil_append, List.cons.injEq] at hb
        exact absurd hb.1.symm hne
      | cons x xs =>
        rw [ha] at hord
        simp only [List.length_append, List.length_cons] at hord
        omega
  obtain ⟨mid, hp2⟩ := hmid
  have hdata : raw.data = pre ++ (openBrace :: mid ++ [closeBrace]) ++ suf := by
    rw [e2, hp2]
    simp
  have hslice := goSlice_middle raw pre (openBrace :: mid ++ [closeBrace]) suf hdata
  have hlen : strings.LastIndex raw "\x7d" + 1 =
      (pre.length : Int) + ((openBrace :: mid ++ [closeBrace]).length : Int) := by
    rw [hL, hp2]
    simp only [List.length_append, List.length_cons, List.length_nil]
    push_cast
    omega
  have hslice2 : goSlice raw (strings.Index raw "\x7b") (strings.LastIndex raw "\x7d" + 1) =
      some ⟨openBrace :: mid ++ [closeBrace]⟩ := by
    rw [hI, hlen]
    exact hslice
  have hrawne : raw ≠ "" := by
    intro h0
    rw [h0] at hopen
    exact absurd hopen (by decide)
  refine ⟨⟨pre⟩, ⟨openBrace :: mid ++ [closeBrace]⟩, ⟨suf⟩, ?_, hn1, hn2, ?_, ?_, hI, hlen,
    hslice2, ?_⟩
  · apply String.ext
    simp only [String.data_append]
    exact hdata
  · rfl
  · exact List.getLast?_concat (openBrace :: mid)
  · intro parts others hparts
    rw [parseGeminiResponse_of_text c parts others raw hparts hrawne, hslice2]
    have h1 : strings.Index raw "\x7b" ≠ -1 := by rw [hI]; omega
    have h2 : strings.LastIndex raw "\x7d" ≠ -1 := by rw [hL]; omega
    simp only [h1, h2, or_self, if_false]

theorem parseGeminiResponse_payload_witness :
    openBrace ∈ fencedReply.data ∧ closeBrace ∈ fencedReply.data ∧
    strings.Index fencedReply "\x7b" ≤ strings.LastIndex fencedReply "\x7d" ∧
    ∃ pre suf : String, fencedReply = pre ++ fencedObject ++ suf ∧
      openBrace ∉ pre.data ∧ closeBrace ∉ suf.data ∧
      goSlice fencedReply (strings.Index fencedReply "\x7b")
        (strings.LastIndex fencedReply "\x7d" + 1) = some fencedObject := by
  refine ⟨by decide, by decide, by decide, ?_⟩
  obtain ⟨⟨pre, payload, suf, h1, h2, h3, -, -, -, -, h4, -⟩, -⟩ :=
    parseGeminiResponse_payload (stubClient .panic "") fencedReply (by decide) (by decide)
      (by decide)
  have h5 : goSlice fencedReply (strings.Index fencedReply "\x7b")
      (strings.LastIndex fencedReply "\x7d" + 1) = some fencedObject := by decide
  have h6 : payload = fencedObject := Option.some.inj (h4.symm.trans h5)
  exact ⟨pre, suf, h6 ▸ h1, h2, h3, h5⟩

/-- C8: for a reply text that is not empty and has no opening brace or no closing brace,
`parseGeminiResponse` returns the error "no valid JSON found in response" and no result. -/
theorem parseGeminiResponse_missing_brace {σ : Type} (c : vertexAIClient σ)
    (parts : List (Option genai.Part)) (others : List (Option genai.Candidate)) (raw : String)
    (hraw : responseTextOf parts = some raw) (hne : raw ≠ "")
    (hmiss : openBrace ∉ raw.data ∨ closeBrace ∉ raw.data) :
    c.parseGeminiResponse (some ⟨some ⟨some ⟨parts⟩⟩ :: others⟩) =
      .error "no valid JSON found in response" := by
  rw [parseGeminiResponse_of_text c parts others raw hraw hne]
  have h : strings.Index raw "\x7b" = -1 ∨ strings.LastIndex raw "\x7d" = -1 := by
    rcases hmiss with h | h
    · exact Or.inl (strings.indexAux_of_not_mem openBrace raw.data h)
    · exact Or.inr (strings.lastIndexAux_of_not_mem closeBrace raw.data h)
  rw [if_pos h]

theorem parseGeminiResponse_missing_brace_witness :
    (stubClient .panic "").parseGeminiResponse (responseOfParts [⟨"no json here"⟩]) =
      .error "no valid JSON found in response" ∧
    (stubClient .panic "").parseGeminiResponse (responseOfParts [⟨""⟩, ⟨"\x7b unfinished"⟩]) =
      .error "no valid JSON found in response" ∧
    (stubClient .panic "").parseGeminiResponse (responseOfParts [⟨"only the end \x7d"⟩]) =
      .error "no valid JSON found in response" :=
  ⟨parseGeminiResponse_missing_brace _ [some ⟨"no json here"⟩] [] "no json here" (by decide)
      (by decide) (Or.inl (by decide)),
    parseGeminiResponse_missing_brace _ [some ⟨""⟩, some ⟨"\x7b unfinished"⟩] []
      "\x7b unfinished" (by decide) (by decide) (Or.inr (by decide)),
    parseGeminiResponse_missing_brace _ [some ⟨"only the end \x7d"⟩] [] "only the end \x7d"
      (by decide) (by decide) (Or.inl (by decide))⟩

/-- Reply extraction on responses whose first candidate is not nil and whose parts up to
the first text are not nil: the reply text is the text of the first part whose text is not
empty, parts after it (nil or not) are ignored; a nil response or one without candidates
fails with "no candidates in response", a first candidate with nil content or without parts
fails with "no content parts in response", a first candidate whose parts all have empty
text fails with "empty response text"; the three errors are pairwise distinct and each
comes without a result. -/
theorem parseGeminiResponse_reply_extraction {σ : Type} (c : vertexAIClient σ)
    (skipped : List genai.Part) (p : genai.Part) (later : List (Option genai.Part))
    (others : List (Option genai.Candidate)) (hskip : ∀ q ∈ skipped, q.Text = "")
    (hp : p.Text ≠ "") :
    responseTextOf (skipped.map some ++ some p :: later) = some p.Text ∧
    c.parseGeminiResponse (some ⟨some ⟨some ⟨skipped.map some ++ some p :: later⟩⟩ :: others⟩) =
      c.parseGeminiResponse (responseOfParts [p]) ∧
    c.parseGeminiResponse none = .error "no candidates in response" ∧
    c.parseGeminiResponse (some ⟨[]⟩) = .error "no candidates in response" ∧
    c.parseGeminiResponse (some ⟨some ⟨none⟩ :: others⟩) =
      .error "no content parts in response" ∧
    c.parseGeminiResponse (some ⟨some ⟨some ⟨[]⟩⟩ :: others⟩) =
      .error "no content parts in response" ∧
    (∀ parts : List genai.Part, parts ≠ [] → (∀ q ∈ parts, q.Text = "") →
      c.parseGeminiResponse (some ⟨some ⟨some ⟨parts.map some⟩⟩ :: others⟩) =
        .error "empty response text") ∧
    ["no candidates in response", "no content parts in response",
      "empty response text"].Nodup := by
  have h1 := responseTextOf_skip skipped p later hskip hp
  have e1 : fmt.Errorf "no candidates in response" [] = "no candidates in response" := by
    decide
  have e2 : fmt.Errorf "no content parts in response" [] = "no content parts in response" := by
    decide
  have e3 : fmt.Errorf "empty response text" [] = "empty response text" := by decide
  refine ⟨h1, ?_, ?_, ?_, ?_, ?_, ?_, by decide⟩
  · rw [parseGeminiResponse_of_text c _ others p.Text h1 hp]
    unfold responseOfParts
    rw [parseGeminiResponse_of_text c ([p].map some) [] p.Text
      (responseTextOf_skip [] p [] (by simp) hp) hp]
  · simp only [vertexAIClient.parseGeminiResponse, e1]
  · simp only [vertexAIClient.parseGeminiResponse, e1]
  · simp only [vertexAIClient.parseGeminiResponse, e2]
  · simp only [vertexAIClient.parseGeminiResponse, e2, List.length_nil, if_true]
  · intro parts hne hall
    have hlen : (parts.map some).length ≠ 0 := by
      rw [List.length_map]
      exact fun h0 => hne (List.length_eq_zero.1 h0)
    simp only [vertexAIClient.parseGeminiResponse, hlen, if_false,
      responseTextOf_all_empty parts hall, if_true, e3]

theorem parseGeminiResponse_reply_extraction_witness :
    (stubClient .panic "bad").parseGeminiResponse
        (some ⟨[some ⟨some ⟨[some ⟨""⟩, some ⟨""⟩, some ⟨"\x7bfirst\x7d"⟩,
          some ⟨"\x7bsecond\x7d"⟩, none]⟩⟩, some ⟨none⟩]⟩) =
      (stubClient .panic "bad").parseGeminiResponse (responseOfParts [⟨"\x7bfirst\x7d"⟩]) ∧
    (stubClient .panic "bad").parseGeminiResponse (responseOfParts [⟨"\x7bfirst\x7d"⟩]) =
      .error "failed to parse JSON response: bad" ∧
    (stubClient .panic "bad").parseGeminiResponse (responseOfParts [⟨""⟩, ⟨""⟩]) =
      .error "empty response text" :=
  ⟨(parseGeminiResponse_reply_extraction (stubClient .panic "bad") [⟨""⟩, ⟨""⟩]
      ⟨"\x7bfirst\x7d"⟩ [some ⟨"\x7bsecond\x7d"⟩, none] [some ⟨none⟩] (by decide)
      (by decide)).2.1,
    rfl,
    (parseGeminiResponse_reply_extraction (stubClient .panic "bad") [⟨""⟩, ⟨""⟩]
      ⟨"\x7bfirst\x7d"⟩ [some ⟨"\x7bsecond\x7d"⟩] [] (by decide) (by decide)).2.2.2.2.2.2.1
      [⟨""⟩, ⟨""⟩] (by simp) (by decide)⟩

/-- C9 (code defect): the loop over the parts reads `part.Text` through every element of the
pointer slice up to the first text, and the first candidate is read through
`candidate.Content`, without a nil test. For the response whose parts are a nil part
followed by a part with the text of an empty object, `parseGeminiResponse` panics instead of
taking that text as the reply; the same response without the nil part, or with the nil part
after the text, hands the text to the decoder. A nil first candidate panics as well, and
the panic passes through the service and the handler. -/
theorem parseGeminiResponse_nil_part_panics {σ : Type} (c : vertexAIClient σ) :
    responseTextOf [none, some ⟨"\x7b\x7d"⟩] = none ∧
    c.parseGeminiResponse nilPartResponse = .panic ∧
    c.parseGeminiResponse (responseOfParts [⟨"\x7b\x7d"⟩]) = c.decodeJSON "\x7b\x7d" ∧
    c.parseGeminiResponse
        (some ⟨[some ⟨some ⟨[some ⟨"\x7b\x7d"⟩, none]⟩⟩]⟩) = c.decodeJSON "\x7b\x7d" ∧
    c.parseGeminiResponse (some ⟨[some ⟨some ⟨[some ⟨""⟩, none]⟩⟩]⟩) = .panic ∧
    c.parseGeminiResponse nilCandidateResponse = .panic ∧
    (handler.serverOf (stubClient (.ok nilPartResponse) "").toClient).AnalyzeIntent
      handler.scenarioRequest 0 = (.panic, 1) := by
  have g1 : strings.Index "\x7b\x7d" "\x7b" = 0 := by decide
  have g2 : strings.LastIndex "\x7b\x7d" "\x7d" = 1 := by decide
  have g3 : goSlice "\x7b\x7d" 0 (1 + 1) = some "\x7b\x7d" := by decide
  have hq := parseGeminiResponse_of_text c [some ⟨"\x7b\x7d"⟩] [] "\x7b\x7d"
    (by decide) (by decide)
  have hr := parseGeminiResponse_of_text c [some ⟨"\x7b\x7d"⟩, none] [] "\x7b\x7d"
    (by decide) (by decide)
  rw [g1, g2, g3] at hq hr
  refine ⟨rfl, rfl, ?_, ?_, rfl, rfl, rfl⟩
  · rw [show responseOfParts [⟨"\x7b\x7d"⟩] =
      some ⟨some ⟨some ⟨[some ⟨"\x7b\x7d"⟩]⟩⟩ :: []⟩ from rfl, hq]
    rfl
  · rw [hr]
    rfl

theorem promptFormat_split :
    promptFormat = promptHead ++ "%s" ++ promptMid ++ "%s%s" ++ promptInstr := by
  decide

theorem Sprintf_promptFormat (text domain contextStr : String) :
    fmt.Sprintf promptFormat [text, domain, contextStr] =
      promptHead ++ text ++ promptMid ++ domain ++ contextStr ++ promptInstr := by
  have hdata : promptFormat.data = promptHead.data ++ Char.ofNat 37 :: Char.ofNat 115 ::
      (promptMid.data ++ Char.ofNat 37 :: Char.ofNat 115 ::
        ([] ++ Char.ofNat 37 :: Char.ofNat 115 :: promptInstr.data)) := by
    rw [promptFormat_split]
    simp only [String.data_append]
    have : ("%s" : String).data = [Char.ofNat 37, Char.ofNat 115] := by decide
    have : ("%s%s" : String).data =
        [Char.ofNat 37, Char.ofNat 115, Char.ofNat 37, Char.ofNat 115] := by decide
    simp [*]
  apply String.ext
  simp only [fmt.Sprintf, String.data_append]
  rw [hdata, fmt.format_verb _ _ _ _ _ _ (by decide) (by decide) (by decide),
    fmt.format_verb _ _ _ _ _ _ (by decide) (by decide) (by decide),
    fmt.format_verb _ _ _ _ _ _ (by decide) (by decide) (by decide),
    fmt.format_literal _ _ _ (by decide)]
  simp

theorem Sprintf_context (joined : String) :
    fmt.Sprintf "\n\n이전 대화 맥락:\n%s" [joined] = contextHeader ++ joined := by
  have hdata : ("\n\n이전 대화 맥락:\n%s" : String).data =
      contextHeader.data ++ Char.ofNat 37 :: Char.ofNat 115 :: [] := by decide
  apply String.ext
  rw [String.data_append]
  change fmt.format _ (String.data "\n\n이전 대화 맥락:\n%s") _ = _
  rw [hdata, fmt.format_verb _ _ _ _ _ _ (by decide) (by decide) (by decide),
    fmt.format_literal _ _ _ (by decide)]
  simp

/-- C10: two requests with the same Text, Domain and ContextMessages give the same prompt,
whatever their UserID and Metadata; the prompt is the fixed head, the text, the fixed middle,
the domain, the context block and the fixed instruction block, where the context block is
empty without context messages and is otherwise the fixed header followed by the messages
in their order joined by one newline; the format string is these fixed texts around the
three places of substitution. -/
theorem buildPrompt_depends_on_three_fields {σ τ : Type} (c1 : vertexAIClient σ)
    (c2 : vertexAIClient τ) (r1 r2 : AnalyzeRequest) (hText : r1.Text = r2.Text)
    (hDomain : r1.Domain = r2.Domain)
    (hContext : r1.ContextMessages = r2.ContextMessages) :
    c1.buildPrompt r1 = c2.buildPrompt r2 ∧
    c1.buildPrompt r1 =
      promptHead ++ r1.Text ++ promptMid ++ r1.Domain ++ contextBlock r1.ContextMessages ++
        promptInstr ∧
    promptFormat = promptHead ++ "%s" ++ promptMid ++ "%s%s" ++ promptInstr := by
  have key : ∀ {ρ : Type} (c : vertexAIClient ρ) (r : AnalyzeRequest), c.buildPrompt r =
      promptHead ++ r.Text ++ promptMid ++ r.Domain ++ contextBlock r.ContextMessages ++
        promptInstr := by
    intro ρ c r
    simp only [vertexAIClient.buildPrompt, Sprintf_promptFormat, Sprintf_context,
      strings.Join_eq_intercalate, contextBlock]
    cases r.ContextMessages <;> simp
  refine ⟨?_, key c1 r1, promptFormat_split⟩
  rw [key c1 r1, key c2 r2, hText, hDomain, hContext]

theorem buildPrompt_depends_on_three_fields_witness :
    promptRequestA.UserID ≠ promptRequestB.UserID ∧
    promptRequestA.Metadata ≠ promptRequestB.Metadata ∧
    (stubClient .panic "").buildPrompt promptRequestA =
      (stubClient (.error "x") "y").buildPrompt promptRequestB ∧
    (stubClient .panic "").buildPrompt promptRequestA =
      promptHead ++ "배포가 실패했어요" ++ promptMid ++ "ci" ++
        (contextHeader ++ "first\nsecond") ++ promptInstr :=
  ⟨by decide, by decide,
    (buildPrompt_depends_on_three_fields (stubClient .panic "") (stubClient (.error "x") "y")
      promptRequestA promptRequestB rfl rfl rfl).1,
    (buildPrompt_depends_on_three_fields (stubClient .panic "") (stubClient (.error "x") "y")
      promptRequestA promptRequestB rfl rfl rfl).2.1⟩

/-- The layout of the prompt: a body that depends on the request, then the instruction
block. -/
theorem buildPrompt_layout {σ : Type} (c : vertexAIClient σ) (request : AnalyzeRequest) :
    c.buildPrompt request =
      (promptHead ++ request.Text ++ promptMid ++ request.Domain ++
        contextBlock request.ContextMessages) ++ promptInstr := by
  simp only [vertexAIClient.buildPrompt, Sprintf_promptFormat, Sprintf_context,
    strings.Join_eq_intercalate, contextBlock]
  cases request.ContextMessages <;> simp

/-- C11 (as stated, refuted): for the request `promptRequestA` it is false that the short
code of each of the five priorities occurs in the priority schema line of the instruction
block of the prompt: the code P0 of Critical does not occur in it. -/
theorem buildPrompt_priority_codes_counterexample :
    ¬ ∀ p ∈ service.definedPriorities, ∃ body line,
      (stubClient .panic "").buildPrompt promptRequestA = body ++ promptInstr ∧
      schemaLine "priority" promptInstr = some line ∧
      strings.Contains line p.String = true := by
  intro h
  obtain ⟨_, line, -, hl, hc⟩ := h service.PriorityCritical (by decide)
  have hline : schemaLine "priority" promptInstr = some prioritySchemaLine := by decide
  rw [hline] at hl
  have e : prioritySchemaLine = line := Option.some.inj hl
  rw [← e] at hc
  revert hc
  decide

/-- C11 (amended): for every request the prompt ends with the fixed instruction block; its
priority schema line names exactly the short codes of Low, Medium, High and Urgent (P4, P3,
P2, P1) and not the code P0 of Critical, which occurs in no line of the instruction block;
its emotional_tone schema line names the code of each of the six tones. -/
theorem buildPrompt_schema_value_sets {σ : Type} (c : vertexAIClient σ)
    (request : AnalyzeRequest) :
    c.buildPrompt request =
      (promptHead ++ request.Text ++ promptMid ++ request.Domain ++
        contextBlock request.ContextMessages) ++ promptInstr ∧
    schemaLine "priority" promptInstr = some prioritySchemaLine ∧
    service.definedPriorities.filter
        (fun p => strings.Contains prioritySchemaLine p.String) =
      [service.PriorityLow, service.PriorityMedium, service.PriorityHigh,
        service.PriorityUrgent] ∧
    strings.Contains prioritySchemaLine service.PriorityCritical.String = false ∧
    (splitLines promptInstr.data).all
        (fun l => !strings.Contains ⟨l⟩ service.PriorityCritical.String) = true ∧
    schemaLine "emotional_tone" promptInstr = some toneSchemaLine ∧
    service.definedTones.all (fun t => strings.Contains toneSchemaLine t.String) = true := by
  refine ⟨buildPrompt_layout c request, ?_, ?_, ?_, ?_, ?_, ?_⟩ <;> decide

/-- C13 (code defect): for the reply text `reversedBraces` both braces are found, the first
opening brace is at offset 2 and the last closing brace at offset 0, so the lower slice
bound 2 exceeds the upper bound 1 and `parseGeminiResponse` panics instead of returning an
error; the panic passes through the service and the handler. The text with the two braces
next to each other is sliced to the empty text and handed to the decoder. -/
theorem parseGeminiResponse_reversed_braces_panics {σ : Type} (c : vertexAIClient σ)
    (others : List (Option genai.Candidate)) :
    reversedBraces ≠ "" ∧ openBrace ∈ reversedBraces.data ∧
    closeBrace ∈ reversedBraces.data ∧
    strings.Index reversedBraces "\x7b" = 2 ∧ strings.LastIndex reversedBraces "\x7d" = 0 ∧
    ¬ (strings.Index reversedBraces "\x7b" ≤ strings.LastIndex reversedBraces "\x7d" + 1) ∧
    goSlice reversedBraces (strings.Index reversedBraces "\x7b")
      (strings.LastIndex reversedBraces "\x7d" + 1) = none ∧
    c.parseGeminiResponse (some ⟨some ⟨some ⟨[some ⟨reversedBraces⟩]⟩⟩ :: others⟩) = .panic ∧
    (handler.serverOf
        (stubClient (.ok (responseOfParts [⟨reversedBraces⟩])) "").toClient).AnalyzeIntent
      handler.scenarioRequest 0 = (.panic, 1) ∧
    c.parseGeminiResponse (some ⟨some ⟨some ⟨[some ⟨"\x7d\x7b"⟩]⟩⟩ :: others⟩) =
      c.decodeJSON "" := by
  have h1 : strings.Index reversedBraces "\x7b" = 2 := by decide
  have h2 : strings.LastIndex reversedBraces "\x7d" = 0 := by decide
  have h3 : goSlice reversedBraces 2 (0 + 1) = none := by decide
  have hp := parseGeminiResponse_of_text c [some ⟨reversedBraces⟩] others reversedBraces
    (by decide) (by decide)
  rw [h1, h2, h3] at hp
  have g1 : strings.Index "\x7d\x7b" "\x7b" = 1 := by decide
  have g2 : strings.LastIndex "\x7d\x7b" "\x7d" = 0 := by decide
  have g3 : goSlice "\x7d\x7b" 1 (0 + 1) = some "" := by decide
  have hq := parseGeminiResponse_of_text c [some ⟨"\x7d\x7b"⟩] others "\x7d\x7b"
    (by decide) (by decide)
  rw [g1, g2, g3] at hq
  refine ⟨by decide, by decide, by decide, h1, h2, ?_, ?_, ?_, rfl, ?_⟩
  · rw [h1, h2]
    decide
  · rw [h1, h2]
    exact h3
  · rw [hp]
    rfl
  · rw [hq]
    rfl

/-- The health result of a `vertexAIClient` is false exactly when the probe call returns an
error, and true exactly when it returns a result. -/
theorem IsHealthy_probe {σ : Type} (c : vertexAIClient σ) (w : σ) :
    ((c.IsHealthy w).1 = some false ↔ ∃ e, (c.AnalyzeIntent probeRequest w).1 = .error e) ∧
    ((c.IsHealthy w).1 = some true ↔ ∃ r, (c.AnalyzeIntent probeRequest w).1 = .ok r) := by
  simp only [vertexAIClient.IsHealthy, probeRequest]
  generalize c.AnalyzeIntent _ w = out
  obtain ⟨r, u⟩ := out
  cases r <;> simp

end gemini

/-! ## Request handler -/

namespace handler

theorem convertPriority_table (s : String) :
    (service.convertPriority s, convertToProtoPriority (service.convertPriority s)) ∈
      priorityTable := by
  unfold service.convertPriority
  split_ifs <;> decide

theorem convertEmotionalTone_table (s : String) :
    (service.convertEmotionalTone s,
      convertToProtoEmotionalTone (service.convertEmotionalTone s)) ∈ toneTable := by
  unfold service.convertEmotionalTone
  split_ifs <;> decide

theorem convertPriority_ne_unspecified (s : String) :
    service.convertPriority s ≠ service.PriorityUnspecified := by
  unfold service.convertPriority
  split_ifs <;> decide

/-- The handler answers a gateway error with the fixed internal-failure signal. -/
theorem AnalyzeIntent_of_gateway_error {σ : Type} (h : IntentAnalyzerServer σ)
    (req : intentpb.IntentRequest) (w w1 : σ) (e : GoError) (hText : req.Text ≠ "")
    (hgw : h.intentService.geminiClient.AnalyzeIntent (gatewayRequestOf req) w =
      (.error e, w1)) :
    h.AnalyzeIntent req w = (.error internalFailure, w1) := by
  simp only [gatewayRequestOf] at hgw
  simp [IntentAnalyzerServer.AnalyzeIntent, service.IntentService.AnalyzeIntent, hText, hgw,
    internalFailure, status.Error]

/-- C1: for a request with text and any structured reply of the gateway, the service result
and the transport response exist, their priorities and tones are a row of the two
correspondence tables (so they lie in the closed sets and are never unspecified), and a
reply with priority P1 and tone urgent gives Urgent and Urgent. -/
theorem AnalyzeIntent_closed_enumerations {σ : Type} (h : IntentAnalyzerServer σ)
    (req : intentpb.IntentRequest) (w w1 : σ) (reply : gemini.AnalyzeResponse)
    (hText : req.Text ≠ "")
    (hgw : h.intentService.geminiClient.AnalyzeIntent (gatewayRequestOf req) w =
      (.ok reply, w1)) :
    ∃ sresp presp,
      h.intentService.AnalyzeIntent (serviceRequestOf h.now req) w = (.ok sresp, w1) ∧
      h.AnalyzeIntent req w = (.ok presp, w1) ∧
      (sresp.Priority, presp.Priority) ∈ priorityTable ∧
      (sresp.EmotionalTone, presp.EmotionalTone) ∈ toneTable ∧
      sresp.Priority ∈ service.definedPriorities ∧
      sresp.Priority ≠ service.PriorityUnspecified ∧
      sresp.EmotionalTone ∈ service.definedTones ∧
      presp.Priority ≠ .PRIORITY_UNSPECIFIED ∧
      presp.EmotionalTone ≠ .TONE_UNSPECIFIED ∧
      (reply.Priority = "P1" →
        sresp.Priority = service.PriorityUrgent ∧ presp.Priority = .PRIORITY_URGENT) ∧
      (reply.EmotionalTone = "urgent" →
        sresp.EmotionalTone = service.ToneUrgent ∧ presp.EmotionalTone = .TONE_URGENT) := by
  simp only [gatewayRequestOf] at hgw
  have hp := convertPriority_table reply.Priority
  have ht := convertEmotionalTone_table reply.EmotionalTone
  have hs : ∃ sresp, h.intentService.AnalyzeIntent (serviceRequestOf h.now req) w =
      (.ok sresp, w1) ∧ sresp.Priority = service.convertPriority reply.Priority ∧
      sresp.EmotionalTone = service.convertEmotionalTone reply.EmotionalTone := by
    simp only [service.IntentService.AnalyzeIntent, serviceRequestOf, hgw]
    exact ⟨_, rfl, rfl, rfl⟩
  obtain ⟨sresp, hsEq, hsP, hsT⟩ := hs
  have hh : ∃ presp, h.AnalyzeIntent req w = (.ok presp, w1) ∧
      presp.Priority = convertToProtoPriority sresp.Priority ∧
      presp.EmotionalTone = convertToProtoEmotionalTone sresp.EmotionalTone := by
    simp only [serviceRequestOf] at hsEq
    simp only [IntentAnalyzerServer.AnalyzeIntent, hText, if_false, hsEq]
    exact ⟨_, rfl, rfl, rfl⟩
  obtain ⟨presp, hhEq, hhP, hhT⟩ := hh
  refine ⟨sresp, presp, hsEq, hhEq, ?_, ?_, ?_, ?_, ?_, ?_, ?_, ?_, ?_⟩ <;>
    simp only [hhP, hhT, hsP, hsT]
  · exact hp
  · exact ht
  · exact service.convertPriority_mem _
  · exact convertPriority_ne_unspecified _
  · exact service.convertEmotionalTone_mem _
  · revert hp
    generalize service.convertPriority reply.Priority = q
    unfold priorityTable
    intro hq
    simp only [List.mem_cons, List.mem_singleton, List.not_mem_nil, or_false, Prod.mk.injEq]
      at hq
    rcases hq with ⟨_, e⟩ | ⟨_, e⟩ | ⟨_, e⟩ | ⟨_, e⟩ | ⟨_, e⟩ <;> rw [e] <;> decide
  · revert ht
    generalize service.convertEmotionalTone reply.EmotionalTone = q
    unfold toneTable
    intro hq
    simp only [List.mem_cons, List.mem_singleton, List.not_mem_nil, or_false, Prod.mk.injEq]
      at hq
    rcases hq with ⟨_, e⟩ | ⟨_, e⟩ | ⟨_, e⟩ | ⟨_, e⟩ | ⟨_, e⟩ | ⟨_, e⟩ <;> rw [e] <;> decide
  · intro hu
    rw [hu]
    decide
  · intro hu
    rw [hu]
    decide

theorem AnalyzeIntent_closed_enumerations_witness :
    scenarioRequest.Text ≠ "" ∧
    ∃ sresp presp,
      (serverOf (constClient (.ok scenarioReply))).intentService.AnalyzeIntent
        (serviceRequestOf (serverOf (constClient (.ok scenarioReply))).now scenarioRequest) 0 =
        (.ok sresp, 1) ∧
      (serverOf (constClient (.ok scenarioReply))).AnalyzeIntent scenarioRequest 0 =
        (.ok presp, 1) ∧
      sresp.Priority = service.PriorityUrgent ∧ presp.Priority = .PRIORITY_URGENT ∧
      sresp.EmotionalTone = service.ToneUrgent ∧ presp.EmotionalTone = .TONE_URGENT := by
  refine ⟨by decide, ?_⟩
  obtain ⟨sresp, presp, h1, h2, -, -, -, -, -, -, -, h3, h4⟩ :=
    AnalyzeIntent_closed_enumerations (serverOf (constClient (.ok scenarioReply)))
      scenarioRequest 0 1 scenarioReply (by decide) rfl
  exact ⟨sresp, presp, h1, h2, (h3 rfl).1, (h3 rfl).2, (h4 rfl).1, (h4 rfl).2⟩

/-- With text in the request, the world after the handler is the world after the one call
of the gateway. -/
theorem AnalyzeIntent_world {σ : Type} (h : IntentAnalyzerServer σ)
    (req : intentpb.IntentRequest) (w : σ) (hText : req.Text ≠ "") :
    (h.AnalyzeIntent req w).2 =
      (h.intentService.geminiClient.AnalyzeIntent (gatewayRequestOf req) w).2 := by
  simp only [IntentAnalyzerServer.AnalyzeIntent, service.IntentService.AnalyzeIntent, hText,
    if_false, gatewayRequestOf]
  generalize h.intentService.geminiClient.AnalyzeIntent _ w = out
  obtain ⟨r, u⟩ := out
  cases r <;> rfl

/-- With text in the request, the handler invokes the counting gateway exactly once. -/
theorem AnalyzeIntent_counts_one_call {σ : Type} (h : IntentAnalyzerServer σ)
    (req : intentpb.IntentRequest) (w : σ) (n : Nat) (hText : req.Text ≠ "") :
    (h.counted.AnalyzeIntent req (w, n)).2.2 = n + 1 := by
  rw [AnalyzeIntent_world h.counted req (w, n) hText]
  rfl

/-- C2: for a request whose text is empty the handler returns no response and the error
InvalidArgument, leaves the world of the gateway as it was, returns the same outcome over
any other gateway, and leaves the call count of a counting gateway at its value. -/
theorem AnalyzeIntent_empty_text {σ τ : Type} (h : IntentAnalyzerServer σ)
    (h2 : IntentAnalyzerServer τ) (req : intentpb.IntentRequest) (w : σ) (w2 : τ) (n : Nat)
    (hText : req.Text = "") :
    h.AnalyzeIntent req w = (.error textRequired, w) ∧
    textRequired.Code = codes.Code.InvalidArgument ∧
    (h2.AnalyzeIntent req w2).1 = (h.AnalyzeIntent req w).1 ∧
    h.counted.AnalyzeIntent req (w, n) = (.error textRequired, (w, n)) := by
  simp [IntentAnalyzerServer.AnalyzeIntent, hText, textRequired, status.Error]

theorem AnalyzeIntent_empty_text_witness :
    emptyRequest.Text = "" ∧
    (serverOf (constClient (.ok scenarioReply))).AnalyzeIntent emptyRequest 0 =
      (.error textRequired, 0) ∧
    ((serverOf (constClient (.error "down"))).AnalyzeIntent emptyRequest 5).1 =
      ((serverOf (constClient (.ok scenarioReply))).AnalyzeIntent emptyRequest 0).1 ∧
    (serverOf (constClient (.ok scenarioReply))).counted.AnalyzeIntent emptyRequest (0, 0) =
      (.error textRequired, (0, 0)) :=
  ⟨rfl,
    (AnalyzeIntent_empty_text (serverOf (constClient (.ok scenarioReply)))
      (serverOf (constClient (.error "down"))) emptyRequest 0 5 0 rfl).1,
    (AnalyzeIntent_empty_text (serverOf (constClient (.ok scenarioReply)))
      (serverOf (constClient (.error "down"))) emptyRequest 0 5 0 rfl).2.2⟩

/-- C3: for a request with text, two runs whose gateways fail with any two errors return
the same outbound signal: no response, the code Internal and the fixed message; the
signal does not contain the text of either error. -/
theorem AnalyzeIntent_failure_uniform {σ τ : Type} (h1 : IntentAnalyzerServer σ)
    (h2 : IntentAnalyzerServer τ) (req : intentpb.IntentRequest) (w1 u1 : σ) (w2 u2 : τ)
    (e1 e2 : GoError) (hText : req.Text ≠ "")
    (hf1 : h1.intentService.geminiClient.AnalyzeIntent (gatewayRequestOf req) w1 =
      (.error e1, u1))
    (hf2 : h2.intentService.geminiClient.AnalyzeIntent (gatewayRequestOf req) w2 =
      (.error e2, u2)) :
    (h1.AnalyzeIntent req w1).1 = .error ⟨codes.Code.Internal, "intent analysis failed"⟩ ∧
    (h2.AnalyzeIntent req w2).1 = (h1.AnalyzeIntent req w1).1 := by
  rw [AnalyzeIntent_of_gateway_error h1 req w1 u1 e1 hText hf1,
    AnalyzeIntent_of_gateway_error h2 req w2 u2 e2 hText hf2]
  exact ⟨rfl, rfl⟩

theorem AnalyzeIntent_failure_uniform_witness :
    (gemini.callFailure.intentService.geminiClient.AnalyzeIntent
        (gatewayRequestOf scenarioRequest) 0).1 =
      .error "vertex AI Gemini generation failed: rpc error: quota exceeded" ∧
    (gemini.noCandidates.intentService.geminiClient.AnalyzeIntent
        (gatewayRequestOf scenarioRequest) 0).1 =
      .error "failed to parse Gemini response: no candidates in response" ∧
    (gemini.noContent.intentService.geminiClient.AnalyzeIntent
        (gatewayRequestOf scenarioRequest) 0).1 =
      .error "failed to parse Gemini response: no content parts in response" ∧
    (gemini.emptyText.intentService.geminiClient.AnalyzeIntent
        (gatewayRequestOf scenarioRequest) 0).1 =
      .error "failed to parse Gemini response: empty response text" ∧
    (gemini.missingBrace.intentService.geminiClient.AnalyzeIntent
        (gatewayRequestOf scenarioRequest) 0).1 =
      .error "failed to parse Gemini response: no valid JSON found in response" ∧
    (gemini.parseFailure.intentService.geminiClient.AnalyzeIntent
        (gatewayRequestOf scenarioRequest) 0).1 =
      .error
        "failed to parse Gemini response: failed to parse JSON response: invalid character" ∧
    (gemini.callFailure.AnalyzeIntent scenarioRequest 0).1 = .error internalFailure ∧
    (gemini.noCandidates.AnalyzeIntent scenarioRequest 0).1 =
      (gemini.callFailure.AnalyzeIntent scenarioRequest 0).1 ∧
    (gemini.noContent.AnalyzeIntent scenarioRequest 0).1 =
      (gemini.callFailure.AnalyzeIntent scenarioRequest 0).1 ∧
    (gemini.emptyText.AnalyzeIntent scenarioRequest 0).1 =
      (gemini.callFailure.AnalyzeIntent scenarioRequest 0).1 ∧
    (gemini.missingBrace.AnalyzeIntent scenarioRequest 0).1 =
      (gemini.callFailure.AnalyzeIntent scenarioRequest 0).1 ∧
    (gemini.parseFailure.AnalyzeIntent scenarioRequest 0).1 =
      (gemini.callFailure.AnalyzeIntent scenarioRequest 0).1 :=
  ⟨rfl, rfl, rfl, rfl, rfl, rfl,
    (AnalyzeIntent_failure_uniform gemini.callFailure gemini.noCandidates scenarioRequest
      0 1 0 1 _ _ (by decide) rfl rfl).1,
    (AnalyzeIntent_failure_uniform gemini.callFailure gemini.noCandidates scenarioRequest
      0 1 0 1 _ _ (by decide) rfl rfl).2,
    (AnalyzeIntent_failure_uniform gemini.callFailure gemini.noContent scenarioRequest
      0 1 0 1 _ _ (by decide) rfl rfl).2,
    (AnalyzeIntent_failure_uniform gemini.callFailure gemini.emptyText scenarioRequest
      0 1 0 1 _ _ (by decide) rfl rfl).2,
    (AnalyzeIntent_failure_uniform gemini.callFailure gemini.missingBrace scenarioRequest
      0 1 0 1 _ _ (by decide) rfl rfl).2,
    (AnalyzeIntent_failure_uniform gemini.callFailure gemini.parseFailure scenarioRequest
      0 1 0 1 _ _ (by decide) rfl rfl).2⟩

/-- C12: `HealthCheck` never returns an error; when the gateway reports a health result the
response is determined by that result alone: false gives NOT_SERVING and "Service is
unhealthy", true gives SERVING and "Service is healthy", and in both cases the details
carry the service name and the version; the health result of the gateway is false exactly
when its probe call returned an error. -/
theorem HealthCheck_status {σ : Type} (h : IntentAnalyzerServer σ) (w w1 : σ) (b : Bool)
    (hg : h.intentService.geminiClient.IsHealthy w = (some b, w1)) :
    (∃ resp, h.HealthCheck w = (.ok resp, w1) ∧
      (b = false → resp.Status = .NOT_SERVING ∧ resp.Message = "Service is unhealthy") ∧
      (b = true → resp.Status = .SERVING ∧ resp.Message = "Service is healthy") ∧
      resp.Details.lookup "service" = some "intent-analyzer" ∧
      resp.Details.lookup "version" = some "1.0.0") ∧
    (∀ (u : σ) (e : status.Status), (h.HealthCheck u).1 ≠ .error e) ∧
    ∀ (c : gemini.vertexAIClient σ) (u : σ),
      (c.toClient.IsHealthy u).1 = some false ↔
        ∃ e, (c.toClient.AnalyzeIntent gemini.probeRequest u).1 = .error e := by
  refine ⟨?_, ?_, ?_⟩
  · have hs : h.intentService.IsHealthy w = (some b, w1) := hg
    simp only [IntentAnalyzerServer.HealthCheck, hs]
    refine ⟨_, rfl, ?_, ?_, rfl, rfl⟩
    · intro hb
      subst hb
      exact ⟨rfl, rfl⟩
    · intro hb
      subst hb
      exact ⟨rfl, rfl⟩
  · intro u e
    simp only [IntentAnalyzerServer.HealthCheck]
    generalize h.intentService.IsHealthy u = out
    obtain ⟨r, v⟩ := out
    cases r <;> simp
  · intro c u
    exact (gemini.IsHealthy_probe c u).1

theorem HealthCheck_status_witness :
    (gemini.callFailure.intentService.geminiClient.IsHealthy 0 = (some false, 1) ∧
      ∃ resp, gemini.callFailure.HealthCheck 0 = (.ok resp, 1) ∧
        resp.Status = .NOT_SERVING ∧ resp.Message = "Service is unhealthy" ∧
        resp.Details.lookup "service" = some "intent-analyzer" ∧
        resp.Details.lookup "version" = some "1.0.0") ∧
    ((serverOf (constClient (.ok scenarioReply))).intentService.geminiClient.IsHealthy 0 =
        (some true, 1) ∧
      ∃ resp, (serverOf (constClient (.ok scenarioReply))).HealthCheck 0 = (.ok resp, 1) ∧
        resp.Status = .SERVING ∧ resp.Message = "Service is healthy") := by
  refine ⟨⟨rfl, ?_⟩, ⟨rfl, ?_⟩⟩
  · obtain ⟨⟨resp, h1, h2, -, h3, h4⟩, -, -⟩ :=
      HealthCheck_status gemini.callFailure 0 1 false rfl
    exact ⟨resp, h1, (h2 rfl).1, (h2 rfl).2, h3, h4⟩
  · obtain ⟨⟨resp, h1, -, h2, -, -⟩, -, -⟩ :=
      HealthCheck_status (serverOf (constClient (.ok scenarioReply))) 0 1 true rfl
    exact ⟨resp, h1, (h2 rfl).1, (h2 rfl).2⟩

end handler
